import Mathlib

/-!
Shallow embedding of the zerocloud object-query middleware
(`src/__init__.py` and `src/zerocloud/objectquery.py`) together with
proofs about its behaviour.  Strings of the Python code are modelled as
`String` or `List Char`, byte counts and HTTP statuses as `Nat`,
wall-clock instants as `Nat` milliseconds, and the set of live temporary
files as a list of paths.  Mutable header dictionaries become
association lists updated functionally.
-/

/-- Python whitespace test used by the models of `str.rstrip` and
`int()` (space, newline, tab, carriage return, vertical tab, form feed). -/
def isPyWhitespace (c : Char) : Bool :=
  c == ' ' || c == '\n' || c == '\t' || c == '\r' || c == '\x0b' || c == '\x0c'

/-- Strip leading and trailing Python whitespace, as `int()` does before
parsing. -/
def stripPy (s : List Char) : List Char :=
  ((s.dropWhile isPyWhitespace).reverse.dropWhile isPyWhitespace).reverse

/-- Value of a decimal digit character, `none` for anything else. -/
def decDigitVal (c : Char) : Option Nat :=
  if '0' ≤ c ∧ c ≤ '9' then some (c.toNat - 48) else none

/-- Value of a hexadecimal digit character, `none` for anything else. -/
def hexDigitVal (c : Char) : Option Nat :=
  if '0' ≤ c ∧ c ≤ '9' then some (c.toNat - 48)
  else if 'a' ≤ c ∧ c ≤ 'f' then some (c.toNat - 87)
  else if 'A' ≤ c ∧ c ≤ 'F' then some (c.toNat - 55)
  else none

/-- Accumulating digit parser over an arbitrary digit-value function. -/
def parseDigitsAux (dv : Char → Option Nat) (base : Nat) :
    List Char → Nat → Option Nat
  | [], acc => some acc
  | c :: rest, acc =>
    match dv c with
    | none => none
    | some d => parseDigitsAux dv base rest (acc * base + d)

/-- Parse a non-empty, all-digit string into a natural number. -/
def parseDigits (dv : Char → Option Nat) (base : Nat) (l : List Char) :
    Option Nat :=
  if l.isEmpty then none else parseDigitsAux dv base l 0

/-- Model of Python `int(s)` on a decimal string with an optional sign
and surrounding whitespace; `none` models `ValueError`. -/
def parsePyInt (s : List Char) : Option Int :=
  match stripPy s with
  | '-' :: rest => (parseDigits decDigitVal 10 rest).map (fun n => -(n : Int))
  | '+' :: rest => (parseDigits decDigitVal 10 rest).map (fun n => (n : Int))
  | t => (parseDigits decDigitVal 10 t).map (fun n => (n : Int))

/-- Model of Python `int(s, 0)` for the two shapes the daemon protocol
produces: a `0x`-prefixed hexadecimal string or a plain decimal string
(`none` models `ValueError`).  Signs and the `0o`/`0b` prefixes are not
produced by the daemon and are not modelled. -/
def parsePyInt0 (s : List Char) : Option Nat :=
  match stripPy s with
  | '0' :: 'x' :: rest => parseDigits hexDigitVal 16 rest
  | '0' :: 'X' :: rest => parseDigits hexDigitVal 16 rest
  | t => parseDigits decDigitVal 10 t

/-- Split off everything before the first line feed, returning the part
before it and the remainder; `none` when the string holds no line feed. -/
def splitFirstNl : List Char → Option (List Char × List Char)
  | [] => none
  | c :: rest =>
    if c == '\n' then some ([], rest)
    else
      match splitFirstNl rest with
      | none => none
      | some (p, q) => some (c :: p, q)

/-- Model of Python `s.split('\n', maxsplit)`: at most `maxsplit` splits,
the remainder kept whole in the last field. -/
def splitOnNl : List Char → Nat → List (List Char)
  | s, 0 => [s]
  | s, m + 1 =>
    match splitFirstNl s with
    | none => [s]
    | some (p, q) => p :: splitOnNl q m

/-- Lowercase hexadecimal digit character for a value below 16. -/
def hexDigitChar (n : Nat) : Char :=
  if n < 10 then Char.ofNat (48 + n) else Char.ofNat (87 + n)

/-- Hexadecimal digits of `n`, most significant first, empty for zero. -/
def natToHex (n : Nat) : List Char :=
  if n = 0 then []
  else natToHex (n / 16) ++ [hexDigitChar (n % 16)]
decreasing_by exact Nat.div_lt_self (Nat.pos_of_ne_zero (by assumption)) (by omega)

/-- Model of Python `'%x' % n`. -/
def hexStr (n : Nat) : List Char :=
  if n = 0 then ['0'] else natToHex n

/-- Model of Python `'0x%06x' % n` (`src/zerocloud/objectquery.py` line
419): the literal `0x` followed by the hexadecimal digits zero-padded on
the left to at least six characters. -/
def format0x06 (n : Nat) : List Char :=
  '0' :: 'x' :: (List.replicate (6 - (hexStr n).length) '0' ++ hexStr n)

/-- Header dictionaries and other Python string-keyed dicts. -/
abbrev Hdrs := List (String × String)

/-- Dictionary lookup, first binding wins. -/
def mget (m : Hdrs) (k : String) : Option String :=
  (m.find? (fun p => p.1 == k)).map (fun p => p.2)

/-- Dictionary assignment `m[k] = v`. -/
def mset (m : Hdrs) (k v : String) : Hdrs :=
  (k, v) :: m.filter (fun p => p.1 != k)

/-- Model of the Python substring test `needle in hay`. -/
def containsSubstr (needle : List Char) : List Char → Bool
  | [] => needle.isEmpty
  | c :: t => needle.isPrefixOf (c :: t) || containsSubstr needle t

/-- Pair up alternating elements, as `zip(devices[0::2], devices[1::2])`
does in `get_zerovm_sysimage_devices`. -/
def zipAlternate : List String → List (String × String)
  | a :: b :: rest => (a, b) :: zipAlternate rest
  | _ => []

/-- Accumulator-based whitespace splitter behind `pySplitWs`. -/
def splitWsAux : List Char → List Char → List String
  | [], acc => if acc.isEmpty then [] else [String.mk acc.reverse]
  | c :: rest, acc =>
    if isPyWhitespace c then
      if acc.isEmpty then splitWsAux rest []
      else String.mk acc.reverse :: splitWsAux rest []
    else splitWsAux rest (c :: acc)

/-- Model of Python `s.split()` with no argument: split on runs of
whitespace, producing no empty fields. -/
def pySplitWs (s : String) : List String :=
  splitWsAux s.data []

/-- Model of `get_zerovm_sysimage_devices` (`objectquery.py` lines
296-307): split the configuration value on whitespace and pair the
well-known device names with their filesystem paths. -/
def get_zerovm_sysimage_devices (conf : String) : List (String × String) :=
  zipAlternate (pySplitWs conf)

/-- Channel of a ZvmNode as `can_run_as_daemon` sees it: only the device
name is inspected. -/
structure DChan where
  device : String
deriving Repr, DecidableEq

/-- ZvmNode as `can_run_as_daemon` (`src/__init__.py` lines 95-130) sees
it: executable, channels, and the network `connect`/`bind` lists. -/
structure ZvmNode where
  exe : String
  channels : List DChan
  connect : List String
  bind : List String
deriving Repr, DecidableEq

/-- Lexicographic comparison of character lists, modelling Python string
ordering on byte strings. -/
def charListLe : List Char → List Char → Bool
  | [], _ => true
  | _ :: _, [] => false
  | a :: as, b :: bs =>
    if a.val < b.val then true
    else if b.val < a.val then false
    else charListLe as bs

/-- Comparator for `sorted(channels, key=lambda ch: ch.device)`. -/
def devLe (a b : DChan) : Bool :=
  charListLe a.device.data b.device.data

/-- Stable insertion used by `sortByDev`. -/
def insertByDev (c : DChan) : List DChan → List DChan
  | [] => [c]
  | d :: rest => if devLe c d then c :: d :: rest else d :: insertByDev c rest

/-- Model of `sorted(node_conf.channels, key=lambda ch: ch.device)`. -/
def sortByDev (l : List DChan) : List DChan :=
  l.foldr insertByDev []

/-- Model of `can_run_as_daemon` (`src/__init__.py` lines 95-130): the
executables must coincide, the node must have at least one channel, the
channel counts must match, the node must not use networking, and the
sorted node channels are compared pairwise (by position) against the
daemon channels with a substring test on the device names. -/
def can_run_as_daemon (node daemon : ZvmNode) : Bool :=
  if node.exe ≠ daemon.exe then false
  else if node.channels.isEmpty then false
  else if node.channels.length ≠ daemon.channels.length then false
  else if node.connect ≠ [] ∨ node.bind ≠ [] then false
  else
    ((sortByDev node.channels).zip daemon.channels).all
      (fun p => containsSubstr p.1.device.data p.2.device.data)

/-- Daemon-reuse predicate exactly as the specification words it
(spec P5): exe equal, channel counts equal, no networking, and for every
sorted node channel there EXISTS some daemon channel whose device
contains it as a substring.  Stated for comparison with
`can_run_as_daemon`. -/
def spec_can_reuse (node daemon : ZvmNode) : Bool :=
  (node.exe == daemon.exe) &&
  (node.channels.length == daemon.channels.length) &&
  node.connect.isEmpty && node.bind.isEmpty &&
  (sortByDev node.channels).all
    (fun n => daemon.channels.any
      (fun d => containsSubstr n.device.data d.device.data))

/-- Modelled from the spec: access flag READABLE of the
`zerocloud.common` bitfield (that module is not among the given sources;
the spec describes `access` as a bitfield of READABLE, WRITABLE, CDR,
NETWORK, RANDOM). -/
def ACCESS_READABLE : Nat := 1

/-- Modelled from the spec: access flag WRITABLE (see ACCESS_READABLE). -/
def ACCESS_WRITABLE : Nat := 2

/-- Modelled from the spec: access flag RANDOM (see ACCESS_READABLE). -/
def ACCESS_RANDOM : Nat := 4

/-- Modelled from the spec: access flag NETWORK (see ACCESS_READABLE). -/
def ACCESS_NETWORK : Nat := 8

/-- Modelled from the spec: access flag CDR (see ACCESS_READABLE). -/
def ACCESS_CDR : Nat := 16

/-- Result of `parse_location(ch['path'])`: the empty path, a swift URL
(with flags recording whether it names an object or a container), an
image path, or some other (network) location. -/
inductive ChanPath
  | empty
  | swift (url : String) (hasObj : Bool) (hasContainer : Bool) (path : String)
  | image (path : String)
  | net (path : String)
deriving Repr, DecidableEq

/-- The `.path` attribute of a parsed location.  The source would raise
`AttributeError` on an empty path in the NETWORK branch; no claim
touches that corner. -/
def ChanPath.pathOf : ChanPath → Option String
  | .empty => none
  | .swift _ _ _ p => some p
  | .image p => some p
  | .net p => some p

/-- One channel of the system map as the resolution loop reads it. -/
structure ChanCfg where
  device : String
  path : ChanPath
  access : Nat
deriving Repr, DecidableEq

/-- Request state the channel-resolution loop (`objectquery.py` lines
910-979) consults: the dict of uploaded tar files, the registered system
images, the local object binding, the access type, and the paths the
resolution can produce (the disk data file, the container DB file, and
the fresh writable temp file `mkstemp` would return). -/
structure ResolveEnv where
  uploaded : Hdrs
  sysimages : Hdrs
  hasLocalFile : Bool
  localUrl : String
  accessType : String
  dataFile : String
  dbFile : String
  freshTmp : String
deriving Repr, DecidableEq

/-- First resolution chain (`objectquery.py` lines 912-952): uploaded
file, else local object or container under a matching swift URL and GET
access. -/
def resolve_phase1 (env : ResolveEnv) (ch : ChanCfg) : Option String :=
  match mget env.uploaded ch.device with
  | some p => some p
  | none =>
    if env.hasLocalFile then
      match ch.path with
      | .swift url hasObj hasCont _ =>
        if url = env.localUrl then
          if hasObj then
            (if env.accessType = "GET" then some env.dataFile else none)
          else if hasCont then
            (if env.accessType = "GET" then some env.dbFile else none)
          else none
        else none
      | _ => none
    else none

/-- Full resolution of one channel's `lpath` (`objectquery.py` lines
910-979).  The second chain starts with a fresh `if` on
`is_sysimage_device`, so a registered system image OVERWRITES whatever
the first chain produced; `.error ()` is the
`BadRequest("Could not resolve channel path")` branch. -/
def resolve_channel (env : ResolveEnv) (ch : ChanCfg) :
    Except Unit (Option String) :=
  let l1 := resolve_phase1 env ch
  match mget env.sysimages ch.device with
  | some sp => .ok (some sp)
  | none =>
    if ch.path = ChanPath.empty ∧ l1 = none ∧ ch.device = "stdin" then
      .ok (some "/dev/null")
    else if ch.access &&& (ACCESS_READABLE ||| ACCESS_CDR) ≠ 0 then
      match l1 with
      | some p => .ok (some p)
      | none =>
        match ch.path with
        | .net _ => .ok none
        | _ => .error ()
    else if ch.access &&& ACCESS_WRITABLE ≠ 0 then
      .ok (some env.freshTmp)
    else if ch.access &&& ACCESS_NETWORK ≠ 0 then
      .ok (ChanPath.pathOf ch.path)
    else .ok l1

/-- The accepted tar content types (`src/__init__.py` lines 13-14). -/
def TAR_MIMES : List String :=
  ["application/x-tar", "application/x-gtar", "application/x-ustar",
   "application/x-gzip"]

/-- One observed chunk of the request body: the reported stream position
after reading it, the wall-clock instant of the check, and whether
inflating it raises `zlib.error`. -/
structure Chunk where
  position : Nat
  time : Nat
  inflate_error : Bool
deriving Repr, DecidableEq

/-- Abstraction of an execution request as the ingestion phase of
`zerovm_query` sees it. -/
structure ZReq where
  zerocloud_id : Option String
  content_length : Option Nat
  content_type : Option String
  access_type : String
  colocated : Option String
  hasObj : Bool
  hasContainer : Bool
  device_available : Bool
  object_exists : Bool
  broker_deleted : Bool
  timestamp_parses : Bool
  pool_exists : Bool
  can_spawn : Bool
  body : List Chunk
deriving Repr, DecidableEq

/-- Header precondition checks of `zerovm_query` (`objectquery.py` lines
688-722), in source order: missing job id, oversized declared length,
missing content type, non-tar content type. -/
def header_checks (rbytes : Nat) (req : ZReq) : Option Nat :=
  if req.zerocloud_id.isNone then some 500
  else if req.content_length.getD 0 > rbytes then some 413
  else
    match req.content_type with
    | none => some 400
    | some ct => if ct ∈ TAR_MIMES then none else some 400

/-- Disk-file and container dispatch (`objectquery.py` lines 725-779):
for an object, an unavailable device answers 404 when the request is
co-located and 507 otherwise; then the GET/PUT preconditions; for a
container only GET is allowed. -/
def object_checks (req : ZReq) : Option Nat :=
  if req.hasObj then
    if ¬req.device_available then
      some (if req.colocated.isSome then 404 else 507)
    else if req.access_type = "GET" ∧ ¬req.object_exists then some 404
    else if req.access_type = "PUT" ∧ ¬req.timestamp_parses then some 400
    else none
  else if req.hasContainer then
    if req.access_type = "GET" then
      (if req.broker_deleted then some 404 else none)
    else some 405
  else none

/-- Thread-pool checks (`objectquery.py` lines 781-794). -/
def pool_checks (req : ZReq) : Option Nat :=
  if ¬req.pool_exists then some 400
  else if ¬req.can_spawn then some 503
  else none

/-- Dispatch checks in source order: object/container handling, then
pool admission. -/
def dispatch_checks (req : ZReq) : Option Nat :=
  match object_checks req with
  | some s => some s
  | none => pool_checks req

/-- The per-chunk checks of the upload loop (`objectquery.py` lines
812-849): quota first, then the upload deadline, then the tar/gzip
processing of the chunk. -/
def scanChunks (rbytes deadline : Nat) : Nat → List Chunk → Except Nat Nat
  | pos, [] => .ok pos
  | _, c :: rest =>
    if c.position > rbytes then .error 413
    else if c.time > deadline then .error 408
    else if c.inflate_error then .error 422
    else scanChunks rbytes deadline c.position rest

/-- Post-loop content-length comparison (`objectquery.py` lines
853-865): short body 499, long body 400. -/
def length_check (cl : Option Nat) (pos : Nat) : Option Nat :=
  match cl with
  | none => none
  | some n => if pos < n then some 499 else if pos > n then some 400 else none

/-- Ingestion phase of `zerovm_query` (`objectquery.py` lines 684-865):
header checks, object and pool dispatch, the chunked upload loop, and
the final content-length comparison.  `.error s` is the HTTP status of
the failure; `.ok ()` means ingestion succeeded. -/
def zerovm_query_pre (rbytes maxUploadTime startTime : Nat) (req : ZReq) :
    Except Nat Unit :=
  match header_checks rbytes req with
  | some s => .error s
  | none =>
    match dispatch_checks req with
    | some s => .error s
    | none =>
      match scanChunks rbytes (startTime + maxUploadTime) 0 req.body with
      | .error s => .error s
      | .ok pos =>
        match length_check req.content_length pos with
        | some s => .error s
        | none => .ok ()

/-- Hardcoded stdout cap of the middleware (`objectquery.py` line 369). -/
def zerovm_stdout_size : Nat := 65536

/-- Hardcoded stderr cap of the middleware (`objectquery.py` line 368). -/
def zerovm_stderr_size : Nat := 65536

/-- The two pipes of the sandbox child. -/
inductive Strm
  | out
  | err
deriving Repr, DecidableEq

/-- Result of one sandbox invocation: return code, whether the child was
killed, and the accumulated stdout and stderr bytes. -/
structure ExecResult where
  retcode : Nat
  killed : Bool
  stdout : List Char
  stderr : List Char
deriving Repr, DecidableEq

/-- Model of `read_from_std` (`objectquery.py` lines 469-482): one
select round delivers, for each ready stream still in `readable`, either
data (appended to the matching buffer) or EOF (the stream is removed). -/
def read_round : List Strm → List (Strm × List Char) → List Char → List Char →
    List Strm × List Char × List Char
  | readable, [], so, se => (readable, so, se)
  | readable, (s, data) :: rest, so, se =>
    if s ∈ readable then
      if data.isEmpty then read_round (readable.erase s) rest so se
      else
        match s with
        | .out => read_round readable rest (so ++ data) se
        | .err => read_round readable rest so (se ++ data)
    else read_round readable rest so se

/-- Main loop of `execute_zerovm` (`objectquery.py` lines 484-503) over
a finite script of select rounds: while streams remain readable, run one
round, then kill the child and return code 4 when either buffer exceeds
its cap; once both streams reached EOF, return 0 for a zero child exit
code and 1 otherwise.  `none` means the script ran out with streams
still open, i.e. the run would hit the deadline-escalation path, which
is not modelled. -/
def exec_loop (soMax seMax exitCode : Nat) :
    List (List (Strm × List Char)) → List Strm → List Char → List Char →
    Option ExecResult
  | [], readable, so, se =>
    if readable.isEmpty then
      some ⟨(if exitCode = 0 then 0 else 1), false, so, se⟩
    else none
  | r :: rest, readable, so, se =>
    if readable.isEmpty then
      some ⟨(if exitCode = 0 then 0 else 1), false, so, se⟩
    else
      if soMax < (read_round readable r so se).2.1.length ∨
          seMax < (read_round readable r so se).2.2.length then
        some ⟨4, true, (read_round readable r so se).2.1,
          (read_round readable r so se).2.2⟩
      else
        exec_loop soMax seMax exitCode rest (read_round readable r so se).1
          (read_round readable r so se).2.1 (read_round readable r so se).2.2

/-- Model of `execute_zerovm` from the initial state: both pipes open and
both buffers empty. -/
def execute_zerovm (soMax seMax exitCode : Nat)
    (script : List (List (Strm × List Char))) : Option ExecResult :=
  exec_loop soMax seMax exitCode script [Strm.out, Strm.err] [] []

/-- Model of `send_to_socket` (`objectquery.py` lines 417-438): frame the
manifest behind a `'0x%06x'` length, parse the 8-byte reply length, then
reject a zero length, reject a length above the stdout cap with code 4,
and otherwise read that many report bytes as stdout with code 0.  The
first component is the byte string written to the socket.  The Timeout
and IOError escapes are not modelled. -/
def send_to_socket (cap : Nat) (mnfst : List Char)
    (replyHead replyBody : List Char) :
    List Char × (Nat × List Char × List Char) :=
  let sent := format0x06 mnfst.length ++ mnfst
  match parsePyInt0 (replyHead.take 8) with
  | none => (sent, (1, ("Report error").data, []))
  | some n =>
    if n = 0 then (sent, (1, ("Report error").data, []))
    else if cap < n then (sent, (4, ("Output too long").data, []))
    else (sent, (0, replyBody.take n, []))

/-- One response channel as the report-handling stage sees it. -/
structure RChan where
  device : String
  lpath : String
  size : Nat
  min_size : Nat
deriving Repr, DecidableEq

/-- The set of live temporary files. -/
structure FS where
  live : List String
deriving Repr, DecidableEq

/-- Model of `os.unlink`. -/
def unlinkFile (fs : FS) (p : String) : FS :=
  ⟨fs.live.filter (fun q => q != p)⟩

/-- Model of `_channel_cleanup` (`objectquery.py` lines 1571-1576):
unlink every `lpath` of the response channel list. -/
def channel_cleanup (fs : FS) (chans : List RChan) : FS :=
  chans.foldl (fun acc ch => unlinkFile acc ch.lpath) fs

/-- Files unlinked by `resp_iter` while streaming (`objectquery.py`
lines 1207-1225): exactly the channels admitted into the response, i.e.
those whose size reaches `min_size`. -/
def stream_cleanup (fs : FS) (chans : List RChan) : FS :=
  channel_cleanup fs (chans.filter (fun ch => ch.min_size ≤ ch.size))

/-- Return-code message table (`objectquery.py` lines 96-102). -/
def RETCODE_MAP : List String :=
  ["OK", "Error", "Timed out", "Killed", "Output too long"]

/-- Leading part of the `_create_exec_error` body (`objectquery.py`
lines 614-617); the raw stdout is appended after it. -/
def execErrorHead (retcode : Nat) : String :=
  "ERROR OBJ.QUERY retcode=" ++ RETCODE_MAP.getD retcode "" ++
    ",  zerovm_stdout="

/-- An HTTP error response as built by `_create_exec_error`. -/
structure ErrResp where
  status : Nat
  body : List Char
  headers : Hdrs
deriving Repr, DecidableEq

/-- Model of `_create_exec_error` (`objectquery.py` lines 612-623):
build a 500 whose body embeds the raw stdout, overwrite `x-nexe-status`
with the fixed runtime-error string, and unlink the response channel
list. -/
def create_exec_error (hdrs : Hdrs) (retcode : Nat) (stdout : List Char)
    (respChans : List RChan) (fs : FS) : ErrResp × FS :=
  (⟨500, (execErrorHead retcode).data ++ stdout,
    mset hdrs "x-nexe-status" "ZeroVM runtime error"⟩,
   channel_cleanup fs respChans)

/-- Replace line feeds by spaces, as `report[5].replace('\n', ' ')`. -/
def replaceNl (l : List Char) : List Char :=
  l.map (fun c => if c == '\n' then ' ' else c)

/-- Model of Python `str.rstrip()`. -/
def pyRstrip (l : List Char) : List Char :=
  (l.reverse.dropWhile isPyWhitespace).reverse

/-- Model of `_parse_zerovm_report` (`objectquery.py` lines 1559-1568),
with the source's in-place header mutations made explicit: the `Bool` is
false when some `int()` raises `ValueError`, and the returned headers
keep the mutations made before the failure. -/
def parse_zerovm_report (hdrs : Hdrs) (report : List (List Char)) :
    Hdrs × Bool :=
  match parsePyInt (report.getD 0 []) with
  | none => (hdrs, false)
  | some v =>
    let h1 := mset hdrs "x-nexe-validation" (toString v)
    match parsePyInt (report.getD 2 []) with
    | none => (h1, false)
    | some rc =>
      let h2 := mset h1 "x-nexe-retcode" (toString rc)
      let h3 := mset h2 "x-nexe-etag" (String.mk (report.getD 3 []))
      let h4 := mset h3 "x-nexe-cdr-line" (String.mk (report.getD 4 []))
      let h5 := mset h4 "x-nexe-status"
        (String.mk (pyRstrip (replaceNl (report.getD 5 []))))
      match parsePyInt (report.getD 1 []) with
      | none => (h5, false)
      | some ds =>
        if 0 < ds then (mset h5 "x-zerovm-daemon" (toString ds), true)
        else (h5, true)

/-- Outcome of the post-run stage: a `_create_exec_error` response, a
raised HTTP error (its status), or the success path. -/
inductive ExecOutcome
  | errorResp (r : ErrResp)
  | httpError (status : Nat)
  | success
deriving Repr, DecidableEq

/-- True exactly on the `_create_exec_error` outcome. -/
def ExecOutcome.isError : ExecOutcome → Bool
  | .errorResp _ => true
  | _ => false

/-- The `x-nexe-status` header of an error-response outcome. -/
def outcomeStatusHeader : ExecOutcome → Option String
  | .errorResp r => mget r.headers "x-nexe-status"
  | _ => none

/-- Stdout with a non-empty stderr appended (`objectquery.py` lines
1123-1125). -/
def exec_stdout (stdout stderr : List Char) : List Char :=
  if stderr.isEmpty then stdout else stdout ++ stderr

/-- The report fields: `zerovm_stdout.split('\n', REPORT_LENGTH - 1)`
(`objectquery.py` line 1126). -/
def exec_report (stdout stderr : List Char) : List (List Char) :=
  splitOnNl (exec_stdout stdout stderr) 5

/-- Headers after the conditional `_parse_zerovm_report` call
(`objectquery.py` lines 1127-1135), with the success flag. -/
def exec_parsed (hdrs : Hdrs) (stdout stderr : List Char) : Hdrs × Bool :=
  if (exec_report stdout stderr).length = 6
  then parse_zerovm_report hdrs (exec_report stdout stderr)
  else (hdrs, true)

/-- Report-handling and commit stage of `zerovm_query` after the
standalone sandbox run (`objectquery.py` lines 1123-1205): append a
non-empty stderr to stdout, split on LF into at most six fields, run
`_parse_zerovm_report` when exactly six fields arrived (a `ValueError`
yields `_create_exec_error`), fail with `_create_exec_error` when the
return code exceeds 1 or fewer than six fields arrived, then finalize
the local writable object (a failure there raises without any channel
cleanup), and otherwise stream the response, unlinking each admitted
channel file.  Returns the outcome, the nexe headers, and the remaining
live files. -/
def handle_exec_result (hdrs : Hdrs) (retcode : Nat)
    (stdout stderr : List Char) (respChans : List RChan)
    (finalizeNeeded : Bool) (finalizeErr : Option Nat) (fs : FS) :
    ExecOutcome × Hdrs × FS :=
  if (exec_report stdout stderr).length = 6 ∧
      (exec_parsed hdrs stdout stderr).2 = false then
    (.errorResp (create_exec_error (exec_parsed hdrs stdout stderr).1 retcode
        (exec_stdout stdout stderr) respChans fs).1,
     (create_exec_error (exec_parsed hdrs stdout stderr).1 retcode
        (exec_stdout stdout stderr) respChans fs).1.headers,
     (create_exec_error (exec_parsed hdrs stdout stderr).1 retcode
        (exec_stdout stdout stderr) respChans fs).2)
  else if retcode > 1 ∨ (exec_report stdout stderr).length < 6 then
    (.errorResp (create_exec_error (exec_parsed hdrs stdout stderr).1 retcode
        (exec_stdout stdout stderr) respChans fs).1,
     (create_exec_error (exec_parsed hdrs stdout stderr).1 retcode
        (exec_stdout stdout stderr) respChans fs).1.headers,
     (create_exec_error (exec_parsed hdrs stdout stderr).1 retcode
        (exec_stdout stdout stderr) respChans fs).2)
  else if finalizeNeeded then
    match finalizeErr with
    | some s => (.httpError s, (exec_parsed hdrs stdout stderr).1, fs)
    | none => (.success, (exec_parsed hdrs stdout stderr).1,
        stream_cleanup fs respChans)
  else (.success, (exec_parsed hdrs stdout stderr).1,
        stream_cleanup fs respChans)

/-- Model of `validate` (`objectquery.py` lines 1340-1409) after the
sandbox ran: on return code 0, split stdout with one LF split, parse the
validator field, and on value 0 copy the object's current ETag into the
`Validated` metadata key and report success.  `none` models the uncaught
`KeyError` when the metadata lacks an ETag. -/
def validate_run (meta : Hdrs) (retcode : Nat) (stdout : List Char) :
    Option (Hdrs × Bool) :=
  if retcode = 0 then
    let report := splitOnNl stdout 1
    match parsePyInt (report.headD []) with
    | none => some (meta, false)
    | some v =>
      if v = 0 then
        match mget meta "ETag" with
        | some e => some (mset meta "Validated" e, true)
        | none => none
      else some (meta, false)
  else some (meta, false)

/-- Model of `is_validated` (`objectquery.py` lines 1411-1432): the
`Validated` marker must exist, be truthy, and equal the truthy current
ETag. -/
def is_validated (meta : Hdrs) : Bool :=
  match mget meta "Validated", mget meta "ETag" with
  | some status, some etag => (status != "") && (etag != "") && (etag == status)
  | _, _ => false

/-- Zero-pad a value below 1000 to three digits. -/
def pad3 (n : Nat) : String :=
  if n < 10 then "00" ++ toString n
  else if n < 100 then "0" ++ toString n
  else toString n

/-- Model of `'%.3f' % trans_time` over an elapsed time in integer
milliseconds (floating point is not modelled; the seconds are truncated
rather than rounded, which no claim distinguishes). -/
def format_trans_time (ms : Nat) : String :=
  toString (ms / 1000) ++ "." ++ pad3 (ms % 1000)

/-- Model of the CDR-line rewrite in `__call__` (`objectquery.py` lines
1326-1330): when the response carries `x-nexe-cdr-line`, prepend the
formatted elapsed time, a comma and a space. -/
def call_cdr_rewrite (transMs : Nat) (hdrs : Hdrs) : Hdrs :=
  match mget hdrs "x-nexe-cdr-line" with
  | some v =>
    mset hdrs "x-nexe-cdr-line" (format_trans_time transMs ++ ", " ++ v)
  | none => hdrs

/-! Helper lemmas about the dictionary model. -/

theorem mget_mset_self (m : Hdrs) (k v : String) :
    mget (mset m k v) k = some v := by
  unfold mget mset
  rw [List.find?_cons_of_pos _ (by simp)]
  rfl

theorem find?_filter_key (m : Hdrs) (k k2 : String) (h : k2 ≠ k) :
    List.find? (fun p => p.1 == k2) (m.filter (fun p => p.1 != k)) =
      List.find? (fun p => p.1 == k2) m := by
  induction m with
  | nil => rfl
  | cons a rest ih =>
    by_cases ha : a.1 = k
    · have hk2 : (a.1 == k2) = false := by
        simp [ha]
        exact fun he => h he.symm
      rw [List.filter_cons_of_neg (by simp [ha]), ih,
        List.find?_cons_of_neg _ (by simp [hk2])]
    · rw [List.filter_cons_of_pos (by simp [ha])]
      by_cases hk2 : a.1 = k2
      · rw [List.find?_cons_of_pos _ (by simp [hk2]),
          List.find?_cons_of_pos _ (by simp [hk2])]
      · rw [List.find?_cons_of_neg _ (by simp [hk2]),
          List.find?_cons_of_neg _ (by simp [hk2]), ih]

theorem mget_mset_ne (m : Hdrs) (k k2 v : String) (h : k2 ≠ k) :
    mget (mset m k v) k2 = mget m k2 := by
  unfold mget mset
  rw [List.find?_cons_of_neg _ (by simp; exact fun he => h he.symm)]
  rw [find?_filter_key m k k2 h]

/-- C1: the claim states that an uploaded tar file always wins channel
resolution, even when the device name is also a registered system-image
name.  The code disagrees: the `is_sysimage_device` branch opens a fresh
`if` chain (`objectquery.py` line 953) and overwrites the `lpath` the
uploaded-file rule had already set, so at this input the resolved
`lpath` is the system-image path although the device was among the
uploaded files. -/
theorem resolve_channel_sysimage_overwrites_uploaded :
    resolve_channel
      ⟨[("img", "/tmp/zvm/img")],
       get_zerovm_sysimage_devices "img /usr/share/img.tar",
       false, "", "", "", "", ""⟩
      ⟨"img", ChanPath.empty, ACCESS_READABLE⟩ =
        .ok (some "/usr/share/img.tar") ∧
    mget [("img", "/tmp/zvm/img")] "img" = some "/tmp/zvm/img" :=
  ⟨by rfl, by rfl⟩

/-- C2 counterexample: the claim's existential reading of the device
comparison is wrong.  Node channels `a`, `b` each occur as a substring
of SOME daemon device (`xa`, `xb`), so the spec predicate accepts, but
the code compares the sorted node channels pairwise against the daemon
channels in their stored order and rejects. -/
theorem can_run_as_daemon_counterexample :
    can_run_as_daemon ⟨"e", [⟨"a"⟩, ⟨"b"⟩], [], []⟩
        ⟨"e", [⟨"xb"⟩, ⟨"xa"⟩], [], []⟩ = false ∧
    spec_can_reuse ⟨"e", [⟨"a"⟩, ⟨"b"⟩], [], []⟩
        ⟨"e", [⟨"xb"⟩, ⟨"xa"⟩], [], []⟩ = true :=
  ⟨rfl, rfl⟩

/-- C2 amended: `can_run_as_daemon` returns true iff the executables
are equal, the node has at least one channel, the channel counts match,
the node uses no networking (`connect` and `bind` both empty), and each
channel of the SORTED node channel list has its device as a substring of
the device of the daemon channel at the SAME position. -/
theorem can_run_as_daemon_iff (node daemon : ZvmNode) :
    can_run_as_daemon node daemon = true ↔
      (node.exe = daemon.exe ∧ node.channels ≠ [] ∧
       node.channels.length = daemon.channels.length ∧
       node.connect = [] ∧ node.bind = [] ∧
       ∀ p ∈ (sortByDev node.channels).zip daemon.channels,
         containsSubstr p.1.device.data p.2.device.data = true) := by
  unfold can_run_as_daemon
  split_ifs with h1 h2 h3 h4
  · simp only [Bool.false_eq_true, false_iff]
    intro hc
    exact h1 hc.1
  · simp only [Bool.false_eq_true, false_iff]
    intro hc
    exact hc.2.1 (List.isEmpty_iff.mp h2)
  · simp only [Bool.false_eq_true, false_iff]
    intro hc
    exact h3 hc.2.2.1
  · simp only [Bool.false_eq_true, false_iff]
    intro hc
    rcases h4 with h | h
    · exact h hc.2.2.2.1
    · exact h hc.2.2.2.2.1
  · rw [List.all_eq_true]
    constructor
    · intro hall
      refine ⟨by push_neg at h1; exact h1, ?_, by push_neg at h3; exact h3,
        ?_, ?_, hall⟩
      · intro hnil
        exact h2 (by simp [hnil])
      · by_contra hc
        exact h4 (Or.inl hc)
      · by_contra hc
        exact h4 (Or.inr hc)
    · intro hc
      exact hc.2.2.2.2.2

/-- C10: whenever the response headers reaching the tail of `__call__`
carry an `x-nexe-cdr-line` value, the value the client observes is the
formatted elapsed time, a comma and a space, and then the original CDR
line — and that is never equal to the bare original line. -/
theorem cdr_line_always_prefixed (t : Nat) (h : Hdrs) (v : String)
    (hv : mget h "x-nexe-cdr-line" = some v) :
    mget (call_cdr_rewrite t h) "x-nexe-cdr-line" =
      some (format_trans_time t ++ ", " ++ v) ∧
    format_trans_time t ++ ", " ++ v ≠ v := by
  constructor
  · unfold call_cdr_rewrite
    rw [hv]
    exact mget_mset_self ..
  · intro he
    have hl := congrArg String.length he
    rw [String.length_append, String.length_append] at hl
    unfold format_trans_time at hl
    rw [String.length_append, String.length_append] at hl
    have h1 : (".").length = 1 := rfl
    have h2 : (", ").length = 2 := rfl
    omega

/-- C10 witness: concrete instance of `cdr_line_always_prefixed` at an
elapsed time of 1.234 seconds over the zero CDR line. -/
theorem cdr_line_always_prefixed_witness :
    mget (call_cdr_rewrite 1234 [("x-nexe-cdr-line", "0 0 0 0 0 0 0 0 0 0")])
        "x-nexe-cdr-line" =
      some (format_trans_time 1234 ++ ", " ++ "0 0 0 0 0 0 0 0 0 0") ∧
    format_trans_time 1234 ++ ", " ++ "0 0 0 0 0 0 0 0 0 0" ≠
      "0 0 0 0 0 0 0 0 0 0" :=
  cdr_line_always_prefixed 1234 [("x-nexe-cdr-line", "0 0 0 0 0 0 0 0 0 0")]
    "0 0 0 0 0 0 0 0 0 0" rfl

/-! Length of the hexadecimal length prefix. -/

theorem natToHex_length_le : ∀ (k n : Nat), n < 16 ^ k → (natToHex n).length ≤ k := by
  intro k
  induction k with
  | zero =>
    intro n hn
    have h0 : n = 0 := by omega
    subst h0
    rw [natToHex]
    simp
  | succ k ih =>
    intro n hn
    rw [natToHex]
    by_cases h : n = 0
    · simp [h]
    · rw [if_neg h, List.length_append]
      have hdiv : n / 16 < 16 ^ k := by
        rw [Nat.div_lt_iff_lt_mul (by norm_num)]
        calc n < 16 ^ (k + 1) := hn
          _ = 16 ^ k * 16 := by rw [pow_succ]
      have := ih (n / 16) hdiv
      simp only [List.length_singleton]
      omega

theorem format0x06_length (n : Nat) (h : n < 16 ^ 6) :
    (format0x06 n).length = 8 := by
  have hle : (hexStr n).length ≤ 6 := by
    unfold hexStr
    by_cases h0 : n = 0
    · simp [h0]
    · rw [if_neg h0]
      exact natToHex_length_le 6 n h
  unfold format0x06
  simp only [List.length_cons, List.length_append, List.length_replicate]
  omega

/-- C7: the daemon socket exchange writes the `'0x%06x'`-formatted
manifest length followed by the manifest bytes (the prefix is 8 ASCII
characters whenever the manifest is shorter than 16^6 bytes); a reply
announcing a length above the stdout cap yields run code 4 with the
fixed overflow message and no report read, and a reply with a positive
in-cap length yields run code 0 with that many report bytes as stdout
and empty stderr. -/
theorem send_to_socket_wire_framing (cap : Nat)
    (mnfst replyHead replyBody : List Char) :
    (send_to_socket cap mnfst replyHead replyBody).1 =
      format0x06 mnfst.length ++ mnfst ∧
    (mnfst.length < 16 ^ 6 → (format0x06 mnfst.length).length = 8) ∧
    (∀ n, parsePyInt0 (replyHead.take 8) = some n → cap < n →
      (send_to_socket cap mnfst replyHead replyBody).2 =
        (4, ("Output too long").data, [])) ∧
    (∀ n, parsePyInt0 (replyHead.take 8) = some n → 0 < n → n ≤ cap →
      (send_to_socket cap mnfst replyHead replyBody).2 =
        (0, replyBody.take n, [])) := by
  refine ⟨?_, fun h => format0x06_length _ h, ?_, ?_⟩
  · unfold send_to_socket
    cases parsePyInt0 (replyHead.take 8) with
    | none => rfl
    | some n =>
      simp only
      split_ifs <;> rfl
  · intro n hp hlt
    unfold send_to_socket
    rw [hp]
    simp only
    rw [if_neg (by omega), if_pos hlt]
  · intro n hp hpos hle
    unfold send_to_socket
    rw [hp]
    simp only
    rw [if_neg (by omega), if_neg (by omega)]

/-- C7 witness: a nine-byte manifest is framed as `0x000009`, a reply
announcing three bytes within a cap of 65536 returns code 0 with the
three report bytes, and at a cap of 2 the same reply returns code 4. -/
theorem send_to_socket_wire_framing_witness :
    (send_to_socket 65536 ("Program=x").data ("0x000003").data
        ("abcdef").data).1 =
      format0x06 ("Program=x").data.length ++ ("Program=x").data ∧
    (format0x06 ("Program=x").data.length).length = 8 ∧
    (send_to_socket 65536 ("Program=x").data ("0x000003").data
        ("abcdef").data).2 = (0, ("abcdef").data.take 3, []) ∧
    (send_to_socket 2 ("m").data ("0x000003").data ("abcdef").data).2 =
      (4, ("Output too long").data, []) := by
  have h1 := send_to_socket_wire_framing 65536 ("Program=x").data
    ("0x000003").data ("abcdef").data
  have h2 := send_to_socket_wire_framing 2 ("m").data
    ("0x000003").data ("abcdef").data
  exact ⟨h1.1, h1.2.1 (by norm_num), h1.2.2.2 3 (by rfl) (by norm_num)
    (by norm_num), h2.2.2.1 3 (by rfl) (by norm_num)⟩

/-- C8: when the sandbox run behind `validate` returns code 0 and the
report's validator field parses to 0, `validate` writes a `Validated`
marker equal to the object's current (non-empty) ETag and reports
success, and `is_validated` on the updated metadata returns true;
conversely `is_validated` returns true only when the `Validated` marker
exists, is non-empty, and equals the current ETag. -/
theorem validate_is_validated_roundtrip :
    (∀ (meta : Hdrs) (stdout : List Char) (e : String),
       mget meta "ETag" = some e → e ≠ "" →
       parsePyInt ((splitOnNl stdout 1).headD []) = some 0 →
       validate_run meta 0 stdout = some (mset meta "Validated" e, true) ∧
       is_validated (mset meta "Validated" e) = true) ∧
    (∀ meta : Hdrs, is_validated meta = true →
       ∃ s e, mget meta "Validated" = some s ∧ mget meta "ETag" = some e ∧
         s ≠ "" ∧ e = s) := by
  constructor
  · intro meta stdout e he hne hp
    constructor
    · unfold validate_run
      rw [if_pos rfl]
      simp only [hp, he]
      rw [if_pos trivial]
    · unfold is_validated
      rw [mget_mset_self, mget_mset_ne _ _ _ _ (by decide), he]
      simp [hne]
  · intro meta hv
    unfold is_validated at hv
    cases hs : mget meta "Validated" with
    | none => rw [hs] at hv; cases hv
    | some status =>
      cases he : mget meta "ETag" with
      | none => rw [hs, he] at hv; cases hv
      | some etag =>
        rw [hs, he] at hv
        simp only [Bool.and_eq_true, bne_iff_ne, ne_eq, beq_iff_eq] at hv
        exact ⟨status, etag, rfl, rfl, hv.1.1, hv.2⟩

/-- C8 witness: concrete metadata with ETag `abc` and a report starting
with validator field `0`. -/
theorem validate_is_validated_roundtrip_witness :
    validate_run [("ETag", "abc")] 0 ("0\nok").data =
      some (mset [("ETag", "abc")] "Validated" "abc", true) ∧
    is_validated (mset [("ETag", "abc")] "Validated" "abc") = true :=
  validate_is_validated_roundtrip.1 [("ETag", "abc")] ("0\nok").data "abc"
    (by rfl) (by decide) (by rfl)

/-! Scanning the upload body past clean chunks. -/

theorem scanChunks_clean_append (rbytes D : Nat) :
    ∀ (good : List Chunk) (p : Nat) (l : List Chunk),
      (∀ g ∈ good, g.position ≤ rbytes ∧ g.time ≤ D ∧
        g.inflate_error = false) →
      ∃ p2, scanChunks rbytes D p (good ++ l) = scanChunks rbytes D p2 l := by
  intro good
  induction good with
  | nil =>
    intro p l _
    exact ⟨p, rfl⟩
  | cons c rest ih =>
    intro p l hclean
    have hc := hclean c (by simp)
    obtain ⟨p2, he⟩ := ih c.position l
      (fun g hg => hclean g (by simp [hg]))
    refine ⟨p2, ?_⟩
    rw [List.cons_append]
    simp only [scanChunks]
    rw [if_neg (by omega), if_neg (by omega), if_neg (by simp [hc.2.2]), he]

/-- C5: each ingestion precondition failure of `zerovm_query` yields
exactly the stated status: a missing `x-zerocloud-id` gives 500; an
absent or non-tar content type gives 400; a body chunk pushing the
stream position past `rbytes` gives 413; a chunk arriving past the
upload deadline gives 408; a body ending short of `Content-Length`
gives 499; a body running past `Content-Length` gives 400. -/
theorem ingest_precondition_statuses (rbytes maxU start : Nat) (req : ZReq) :
    (req.zerocloud_id = none →
      zerovm_query_pre rbytes maxU start req = .error 500) ∧
    (req.zerocloud_id.isSome = true → req.content_length.getD 0 ≤ rbytes →
      req.content_type = none →
      zerovm_query_pre rbytes maxU start req = .error 400) ∧
    (∀ ct, req.zerocloud_id.isSome = true →
      req.content_length.getD 0 ≤ rbytes →
      req.content_type = some ct → ct ∉ TAR_MIMES →
      zerovm_query_pre rbytes maxU start req = .error 400) ∧
    (header_checks rbytes req = none → dispatch_checks req = none →
      ∀ good c rest, req.body = good ++ c :: rest →
      (∀ g ∈ good, g.position ≤ rbytes ∧ g.time ≤ start + maxU ∧
        g.inflate_error = false) →
      ((c.position > rbytes →
         zerovm_query_pre rbytes maxU start req = .error 413) ∧
       (c.position ≤ rbytes → c.time > start + maxU →
         zerovm_query_pre rbytes maxU start req = .error 408))) ∧
    (header_checks rbytes req = none → dispatch_checks req = none →
      ∀ pos n, scanChunks rbytes (start + maxU) 0 req.body = .ok pos →
      req.content_length = some n →
      ((pos < n → zerovm_query_pre rbytes maxU start req = .error 499) ∧
       (n < pos → zerovm_query_pre rbytes maxU start req = .error 400))) := by
  refine ⟨?_, ?_, ?_, ?_, ?_⟩
  · intro h
    simp [zerovm_query_pre, header_checks, h]
  · intro h1 h2 hct
    obtain ⟨j, hj⟩ := Option.isSome_iff_exists.mp h1
    simp [zerovm_query_pre, header_checks, hj, hct, Nat.not_lt.mpr h2]
  · intro ct h1 h2 hct hnot
    obtain ⟨j, hj⟩ := Option.isSome_iff_exists.mp h1
    simp [zerovm_query_pre, header_checks, hj, hct, Nat.not_lt.mpr h2, hnot]
  · intro hh hd good c rest hbody hclean
    obtain ⟨p2, hsc⟩ :=
      scanChunks_clean_append rbytes (start + maxU) good 0 (c :: rest) hclean
    constructor
    · intro hpos
      unfold zerovm_query_pre
      rw [hh, hd, hbody, hsc]
      simp only [scanChunks]
      rw [if_pos hpos]
    · intro hpos htime
      unfold zerovm_query_pre
      rw [hh, hd, hbody, hsc]
      simp only [scanChunks]
      rw [if_neg (by omega), if_pos htime]
  · intro hh hd pos n hscan hcl
    constructor
    · intro hlt
      unfold zerovm_query_pre
      rw [hh, hd, hscan, hcl]
      simp [length_check, hlt]
    · intro hgt
      unfold zerovm_query_pre
      rw [hh, hd, hscan, hcl]
      simp [length_check, hgt, Nat.not_lt.mpr (Nat.le_of_lt hgt)]

/-- C5 witness: one concrete request per stated status (500 missing job
id; 400 non-tar content type; 413 quota crossed mid-stream; 408 chunk
past the deadline; 499 short body; 400 long body). -/
theorem ingest_precondition_statuses_witness :
    zerovm_query_pre 100 10 0
      ⟨none, none, none, "", none, false, false, true, true, false, true,
       true, true, []⟩ = .error 500 ∧
    zerovm_query_pre 100 10 0
      ⟨some "j", none, some "text/plain", "", none, false, false, true, true,
       false, true, true, true, []⟩ = .error 400 ∧
    zerovm_query_pre 100 10 0
      ⟨some "j", none, some "application/x-tar", "", none, false, false, true,
       true, false, true, true, true, [⟨200, 1, false⟩]⟩ = .error 413 ∧
    zerovm_query_pre 100 10 0
      ⟨some "j", none, some "application/x-tar", "", none, false, false, true,
       true, false, true, true, true, [⟨50, 20, false⟩]⟩ = .error 408 ∧
    zerovm_query_pre 100 10 0
      ⟨some "j", some 60, some "application/x-tar", "", none, false, false,
       true, true, false, true, true, true, [⟨50, 1, false⟩]⟩ = .error 499 ∧
    zerovm_query_pre 100 10 0
      ⟨some "j", some 40, some "application/x-tar", "", none, false, false,
       true, true, false, true, true, true, [⟨50, 1, false⟩]⟩ = .error 400 := by
  refine ⟨(ingest_precondition_statuses 100 10 0 _).1 rfl,
    (ingest_precondition_statuses 100 10 0 _).2.2.1 "text/plain" rfl (by simp)
      rfl (by decide),
    ?_, ?_, ?_, ?_⟩
  · have h := (ingest_precondition_statuses 100 10 0
      ⟨some "j", none, some "application/x-tar", "", none, false, false, true,
       true, false, true, true, true, [⟨200, 1, false⟩]⟩).2.2.2.1
      rfl rfl [] ⟨200, 1, false⟩ [] rfl (by simp)
    exact h.1 (by norm_num)
  · have h := (ingest_precondition_statuses 100 10 0
      ⟨some "j", none, some "application/x-tar", "", none, false, false, true,
       true, false, true, true, true, [⟨50, 20, false⟩]⟩).2.2.2.1
      rfl rfl [] ⟨50, 20, false⟩ [] rfl (by simp)
    exact h.2 (by norm_num) (by norm_num)
  · have h := (ingest_precondition_statuses 100 10 0
      ⟨some "j", some 60, some "application/x-tar", "", none, false, false,
       true, true, false, true, true, true, [⟨50, 1, false⟩]⟩).2.2.2.2
      rfl rfl 50 60 (by rfl) rfl
    exact h.1 (by norm_num)
  · have h := (ingest_precondition_statuses 100 10 0
      ⟨some "j", some 40, some "application/x-tar", "", none, false, false,
       true, true, false, true, true, true, [⟨50, 1, false⟩]⟩).2.2.2.2
      rfl rfl 50 40 (by rfl) rfl
    exact h.2 (by norm_num)

/-- C9: on an execution request naming an object whose disk-file device
is unavailable (all header preconditions passing), `zerovm_query`
answers 404 when the request carries `x-nexe-colocated`, and 507 when it
does not. -/
theorem device_unavailable_status (rbytes maxU start : Nat) (req : ZReq)
    (hh : header_checks rbytes req = none) (hobj : req.hasObj = true)
    (hdev : req.device_available = false) :
    zerovm_query_pre rbytes maxU start req =
      .error (if req.colocated.isSome then 404 else 507) := by
  unfold zerovm_query_pre dispatch_checks object_checks
  rw [hh]
  simp [hobj, hdev]

/-- C9 witness: the same unavailable-device request answers 404 with the
co-location header and 507 without it. -/
theorem device_unavailable_status_witness :
    zerovm_query_pre 100 10 0
      ⟨some "j", none, some "application/x-tar", "GET", some "s:a", true,
       false, false, true, false, true, true, true, []⟩ = .error 404 ∧
    zerovm_query_pre 100 10 0
      ⟨some "j", none, some "application/x-tar", "GET", none, true, false,
       false, true, false, true, true, true, []⟩ = .error 507 :=
  ⟨device_unavailable_status 100 10 0 _ rfl rfl rfl,
   device_unavailable_status 100 10 0 _ rfl rfl rfl⟩

/-! Membership in the cleaned-up file set. -/

theorem mem_channel_cleanup (p : String) :
    ∀ (chans : List RChan) (fs : FS),
      p ∈ (channel_cleanup fs chans).live ↔
        p ∈ fs.live ∧ ∀ ch ∈ chans, p ≠ ch.lpath := by
  intro chans
  induction chans with
  | nil =>
    intro fs
    simp [channel_cleanup]
  | cons c t ih =>
    intro fs
    unfold channel_cleanup at ih ⊢
    rw [List.foldl_cons, ih (unlinkFile fs c.lpath)]
    simp only [unlinkFile, List.mem_filter, bne_iff_ne, ne_eq,
      List.forall_mem_cons]
    tauto

theorem splitOnNl_length_le : ∀ (m : Nat) (s : List Char),
    (splitOnNl s m).length ≤ m + 1 := by
  intro m
  induction m with
  | zero =>
    intro s
    simp [splitOnNl]
  | succ k ih =>
    intro s
    cases h : splitFirstNl s with
    | none => simp [splitOnNl, h]
    | some pq =>
      obtain ⟨p, q⟩ := pq
      simp only [splitOnNl, h, List.length_cons]
      have := ih q
      omega

theorem create_exec_error_spec (hdrs : Hdrs) (retcode : Nat)
    (out : List Char) (respChans : List RChan) (fs : FS) :
    (create_exec_error hdrs retcode out respChans fs).1.status = 500 ∧
    (create_exec_error hdrs retcode out respChans fs).1.body =
      (execErrorHead retcode).data ++ out ∧
    mget (create_exec_error hdrs retcode out respChans fs).1.headers
      "x-nexe-status" = some "ZeroVM runtime error" ∧
    (create_exec_error hdrs retcode out respChans fs).2 =
      channel_cleanup fs respChans :=
  ⟨rfl, rfl, mget_mset_self .., rfl⟩

theorem handle_exec_error_eq (hdrs : Hdrs) (retcode : Nat)
    (stdout stderr : List Char) (respChans : List RChan)
    (fneed : Bool) (ferr : Option Nat) (fs : FS)
    (hcond : retcode > 1 ∨ (exec_report stdout stderr).length < 6) :
    handle_exec_result hdrs retcode stdout stderr respChans fneed ferr fs =
      (.errorResp (create_exec_error (exec_parsed hdrs stdout stderr).1
          retcode (exec_stdout stdout stderr) respChans fs).1,
       (create_exec_error (exec_parsed hdrs stdout stderr).1 retcode
          (exec_stdout stdout stderr) respChans fs).1.headers,
       (create_exec_error (exec_parsed hdrs stdout stderr).1 retcode
          (exec_stdout stdout stderr) respChans fs).2) := by
  unfold handle_exec_result
  by_cases h1 : (exec_report stdout stderr).length = 6 ∧
      (exec_parsed hdrs stdout stderr).2 = false
  · rw [if_pos h1]
  · rw [if_neg h1, if_pos hcond]

/-- C3 counterexample: the claim says every failure path unlinks the
temp files of the response channel list.  Here the sandbox ran
successfully (code 0, well-formed six-field report), finalizing the
local writable object fails with 422 UnprocessableEntity, and the
response channel's temp file `t1` is still live afterwards. -/
theorem finalize_failure_leaves_temp_files :
    (handle_exec_result [] 0 ("0\n0\n0\ne\nc\ns").data [] [⟨"d", "t1", 5, 0⟩]
        true (some 422) ⟨["t1"]⟩).1 = .httpError 422 ∧
    "t1" ∈ (handle_exec_result [] 0 ("0\n0\n0\ne\nc\ns").data []
        [⟨"d", "t1", 5, 0⟩] true (some 422) ⟨["t1"]⟩).2.2.live := by
  exact ⟨by rfl, by decide⟩

/-- C3 amended: on the execution-report failure paths (`ValueError` in
report parsing, return code above 1, or fewer than six report fields)
every file of the response channel list is unlinked; but on the
local-object finalize failure path (UnprocessableEntity or
InsufficientStorage after a successful run) the live file set is
untouched, so those temp files are not unlinked. -/
theorem exec_error_paths_unlink_channels (hdrs : Hdrs) (retcode : Nat)
    (stdout stderr : List Char) (respChans : List RChan)
    (fneed : Bool) (ferr : Option Nat) (fs : FS) :
    ((handle_exec_result hdrs retcode stdout stderr respChans fneed ferr
        fs).1.isError = true →
      ∀ ch ∈ respChans,
        ch.lpath ∉ (handle_exec_result hdrs retcode stdout stderr respChans
          fneed ferr fs).2.2.live) ∧
    (∀ s, (handle_exec_result hdrs retcode stdout stderr respChans fneed ferr
        fs).1 = .httpError s →
      (handle_exec_result hdrs retcode stdout stderr respChans fneed ferr
        fs).2.2 = fs) := by
  unfold handle_exec_result
  split_ifs with h1 h2 h3
  · constructor
    · intro _ ch hch hmem
      rw [(create_exec_error_spec _ _ _ _ _).2.2.2, mem_channel_cleanup]
        at hmem
      exact hmem.2 ch hch rfl
    · intro s hs
      exact absurd hs (by simp)
  · constructor
    · intro _ ch hch hmem
      rw [(create_exec_error_spec _ _ _ _ _).2.2.2, mem_channel_cleanup]
        at hmem
      exact hmem.2 ch hch rfl
    · intro s hs
      exact absurd hs (by simp)
  · cases ferr with
    | none =>
      constructor
      · intro herr
        simp [ExecOutcome.isError] at herr
      · intro s hs
        exact absurd hs (by simp)
    | some s0 =>
      constructor
      · intro herr
        simp [ExecOutcome.isError] at herr
      · intro s hs
        rfl
  · constructor
    · intro herr
      simp [ExecOutcome.isError] at herr
    · intro s hs
      exact absurd hs (by simp)

/-- C3 witness: a killed run (code 3) with one response channel; its
temp file is gone from the live set afterwards. -/
theorem exec_error_paths_unlink_channels_witness :
    "t2" ∉ (handle_exec_result [] 3 ("dead").data [] [⟨"d", "t2", 5, 0⟩]
        false none ⟨["t2"]⟩).2.2.live :=
  (exec_error_paths_unlink_channels [] 3 ("dead").data [] [⟨"d", "t2", 5, 0⟩]
      false none ⟨["t2"]⟩).1 (by rfl) ⟨"d", "t2", 5, 0⟩ (by simp)

/-- C4 counterexample: the claim says the raw stdout is surfaced in the
`x-nexe-status` header.  At a timed-out run (code 2) with raw stdout
`boom`, the header the error response carries is the fixed string
`ZeroVM runtime error`, not the raw stdout. -/
theorem exec_error_status_header_not_stdout :
    outcomeStatusHeader
      (handle_exec_result [] 2 ("boom").data [] [] false none ⟨[]⟩).1 =
      some "ZeroVM runtime error" ∧
    some ("ZeroVM runtime error" : String) ≠ some ("boom" : String) :=
  ⟨by rfl, by decide⟩

/-- C4 amended: stdout (with a non-empty stderr appended) is split on LF
into at most six fields; whenever fewer than six fields result or the
run code exceeds 1, the request fails with InternalError (500) whose
body embeds the raw stdout, whose `x-nexe-status` header is the fixed
string `ZeroVM runtime error` (not the raw stdout), and every file of
the response channel list is unlinked. -/
theorem exec_error_surfaces_stdout_in_body (hdrs : Hdrs) (retcode : Nat)
    (stdout stderr : List Char) (respChans : List RChan)
    (fneed : Bool) (ferr : Option Nat) (fs : FS) :
    (exec_report stdout stderr).length ≤ 6 ∧
    (retcode > 1 ∨ (exec_report stdout stderr).length < 6 →
      ∃ r fs2,
        handle_exec_result hdrs retcode stdout stderr respChans fneed ferr
            fs = (.errorResp r, r.headers, fs2) ∧
        r.status = 500 ∧
        r.body = (execErrorHead retcode).data ++ exec_stdout stdout stderr ∧
        mget r.headers "x-nexe-status" = some "ZeroVM runtime error" ∧
        ∀ ch ∈ respChans, ch.lpath ∉ fs2.live) := by
  constructor
  · exact splitOnNl_length_le 5 (exec_stdout stdout stderr)
  · intro hcond
    obtain ⟨h500, hbody, hhdr, hfs⟩ := create_exec_error_spec
      (exec_parsed hdrs stdout stderr).1 retcode (exec_stdout stdout stderr)
      respChans fs
    refine ⟨(create_exec_error (exec_parsed hdrs stdout stderr).1 retcode
        (exec_stdout stdout stderr) respChans fs).1,
      (create_exec_error (exec_parsed hdrs stdout stderr).1 retcode
        (exec_stdout stdout stderr) respChans fs).2,
      handle_exec_error_eq hdrs retcode stdout stderr respChans fneed ferr fs
        hcond,
      h500, hbody, hhdr, ?_⟩
    intro ch hch hmem
    rw [hfs, mem_channel_cleanup] at hmem
    exact hmem.2 ch hch rfl

/-- C4 witness: a timed-out run (code 2) with stdout `boom` and one
response channel yields an InternalError whose body ends in the raw
stdout and whose channel temp file is unlinked. -/
theorem exec_error_surfaces_stdout_in_body_witness :
    (handle_exec_result [] 2 ("boom").data [] [⟨"d", "t3", 5, 0⟩] false none
        ⟨["t3"]⟩).1.isError = true ∧
    "t3" ∉ (handle_exec_result [] 2 ("boom").data [] [⟨"d", "t3", 5, 0⟩]
        false none ⟨["t3"]⟩).2.2.live := by
  obtain ⟨r, fs2, heq, h500, hbody, hhdr, hcl⟩ :=
    (exec_error_surfaces_stdout_in_body [] 2 ("boom").data []
      [⟨"d", "t3", 5, 0⟩] false none ⟨["t3"]⟩).2 (Or.inl (by norm_num))
  rw [heq]
  exact ⟨rfl, hcl ⟨"d", "t3", 5, 0⟩ (by simp)⟩

/-! Invariant of the sandbox read loop. -/

theorem exec_loop_invariant (soMax seMax exitCode : Nat) :
    ∀ (script : List (List (Strm × List Char))) (readable : List Strm)
      (so se : List Char) (r : ExecResult),
      so.length ≤ soMax → se.length ≤ seMax →
      exec_loop soMax seMax exitCode script readable so se = some r →
      ((r.retcode = 4 → r.killed = true ∧
          (soMax < r.stdout.length ∨ seMax < r.stderr.length)) ∧
       (r.retcode ≠ 4 →
          r.retcode = (if exitCode = 0 then 0 else 1) ∧ r.killed = false ∧
          r.stdout.length ≤ soMax ∧ r.stderr.length ≤ seMax)) := by
  intro script
  induction script with
  | nil =>
    intro readable so se r hso hse h
    unfold exec_loop at h
    by_cases hr : readable.isEmpty
    · rw [if_pos hr] at h
      injection h with h2
      subst h2
      constructor
      · intro h4
        by_cases he : exitCode = 0 <;> simp [he] at h4
      · intro _
        exact ⟨rfl, rfl, hso, hse⟩
    · rw [if_neg hr] at h
      cases h
  | cons rd rest ih =>
    intro readable so se r hso hse h
    unfold exec_loop at h
    by_cases hr : readable.isEmpty
    · rw [if_pos hr] at h
      injection h with h2
      subst h2
      constructor
      · intro h4
        by_cases he : exitCode = 0 <;> simp [he] at h4
      · intro _
        exact ⟨rfl, rfl, hso, hse⟩
    · rw [if_neg hr] at h
      by_cases hover : soMax < (read_round readable rd so se).2.1.length ∨
          seMax < (read_round readable rd so se).2.2.length
      · rw [if_pos hover] at h
        injection h with h2
        subst h2
        constructor
        · intro _
          exact ⟨rfl, hover⟩
        · intro h4
          exact absurd rfl h4
      · rw [if_neg hover] at h
        push_neg at hover
        exact ih _ _ _ r hover.1 hover.2 h

/-- C6: for every modelled sandbox run that terminates within the
deadline, whenever the result code is 4 the child was killed and the
accumulated stdout exceeded the stdout cap or the accumulated stderr
exceeded the stderr cap (and conversely any other outcome stayed within
both caps); when both pipes reached EOF the result code is 0 for a zero
child exit code and 1 otherwise, without a kill and with the accumulated
stdout and stderr within the caps.  The middleware instantiates the caps
with the hardcoded 65536. -/
theorem execute_zerovm_bounded_output (soMax seMax exitCode : Nat)
    (script : List (List (Strm × List Char))) (r : ExecResult)
    (h : execute_zerovm soMax seMax exitCode script = some r) :
    zerovm_stdout_size = 65536 ∧ zerovm_stderr_size = 65536 ∧
    ((r.retcode = 4 → r.killed = true ∧
        (soMax < r.stdout.length ∨ seMax < r.stderr.length)) ∧
     (r.retcode ≠ 4 →
        r.retcode = (if exitCode = 0 then 0 else 1) ∧ r.killed = false ∧
        r.stdout.length ≤ soMax ∧ r.stderr.length ≤ seMax)) :=
  ⟨rfl, rfl, exec_loop_invariant soMax seMax exitCode script
    [Strm.out, Strm.err] [] [] r (by simp) (by simp) h⟩

/-- C6 witness: with caps of 2 a single round delivering three stdout
bytes kills the child with code 4, and the overflow fact follows from
the theorem. -/
theorem execute_zerovm_bounded_output_witness :
    execute_zerovm 2 2 0 [[(Strm.out, ("abc").data)]] =
      some ⟨4, true, ("abc").data, []⟩ ∧
    ((⟨4, true, ("abc").data, []⟩ : ExecResult).killed = true ∧
      (2 < (("abc").data).length ∨ 2 < ([] : List Char).length)) :=
  ⟨by rfl,
   ((execute_zerovm_bounded_output 2 2 0 [[(Strm.out, ("abc").data)]]
      ⟨4, true, ("abc").data, []⟩ (by rfl)).2.2.1 rfl)⟩
